import Mathlib

/-!
Verification of the OAuth token lifecycle and calendar-event proxy of
MELODY-AGENDA (`src/server.ts`), as a shallow embedding in Lean 4.

The server is an Express application.  Each HTTP handler is embedded as a
total Lean function from the request-visible state (cookies, query
parameters) and the results of the upstream network calls (token exchange,
token refresh, calendar list) to an `HttpResult` recording the response
status, the response outcome, the cookie operations issued on the response,
and the trace of upstream network calls performed.

JavaScript truthiness on `string | undefined` values (cookies, query
parameters, token fields) is modelled by `jsTruthy` on `Option String`:
`undefined` and the empty string are falsy, every other string is truthy.
-/

/-- JS truthiness of a `string | undefined` value: `undefined` and `""` are
falsy. -/
def jsTruthy : Option String → Bool
  | none => false
  | some s => s ≠ ""

/-- `listStartsWith sub l` is true iff `sub` is an initial segment of `l`. -/
def listStartsWith : List Char → List Char → Bool
  | [], _ => true
  | _ :: _, [] => false
  | c :: cs, d :: ds => c == d && listStartsWith cs ds

/-- Occurrence of `sub` as a contiguous segment of the second list. -/
def listInfixOf (sub : List Char) : List Char → Bool
  | [] => listStartsWith sub []
  | c :: rest => listStartsWith sub (c :: rest) || listInfixOf sub rest

/-- JS `hay.includes(sub)`. -/
def strIncludes (hay sub : String) : Bool :=
  listInfixOf sub.data hay.data

/-- Options passed to Express `res.cookie` in `server.ts`. -/
structure CookieOpts where
  httpOnly : Bool
  secure : Bool
  sameSite : String
  maxAge : Nat
deriving DecidableEq, Repr

/-- Options passed to Express `res.clearCookie` in `server.ts`:
sameSite none and secure true. -/
structure ClearOpts where
  sameSite : String
  secure : Bool
deriving DecidableEq, Repr

/-- A cookie operation issued on the response.  `set` records the raw
JavaScript value handed to `res.cookie` (possibly `undefined`). -/
inductive CookieOp
  | set (name : String) (value : Option String) (opts : CookieOpts)
  | clear (name : String) (opts : ClearOpts)
deriving DecidableEq, Repr

/-- Cookie options used for the `google_access_token` cookie:
`httpOnly: true, secure: true, sameSite: 'none', maxAge: 3600 * 1000`. -/
def accessCookieOpts : CookieOpts :=
  { httpOnly := true, secure := true, sameSite := "none", maxAge := 3600 * 1000 }

/-- Cookie options used for the `google_refresh_token` cookie:
`httpOnly: true, secure: true, sameSite: 'none', maxAge: 30 * 24 * 3600 * 1000`. -/
def refreshCookieOpts : CookieOpts :=
  { httpOnly := true, secure := true, sameSite := "none",
    maxAge := 30 * 24 * 3600 * 1000 }

/-- Options passed to both `res.clearCookie` calls in `server.ts`. -/
def clearCookieOpts : ClearOpts :=
  { sameSite := "none", secure := true }

/-- The browser-side cookie jar for this session: the only persistent
session state (the Token Store of the spec). -/
structure CookieJar where
  google_access_token : Option String
  google_refresh_token : Option String
deriving DecidableEq, Repr

/-- The empty Token Store. -/
def CookieJar.empty : CookieJar :=
  { google_access_token := none, google_refresh_token := none }

/-- Effect of one response cookie operation on the browser's jar.  Express
`res.cookie` stringifies its value, so setting an `undefined` value stores
the literal string produced by JavaScript `String(undefined)`. -/
def applyCookieOp (jar : CookieJar) : CookieOp → CookieJar
  | .set n v _ =>
    let stored := some (v.getD "undefined")
    if n = "google_access_token" then { jar with google_access_token := stored }
    else if n = "google_refresh_token" then { jar with google_refresh_token := stored }
    else jar
  | .clear n _ =>
    if n = "google_access_token" then { jar with google_access_token := none }
    else if n = "google_refresh_token" then { jar with google_refresh_token := none }
    else jar

/-- Effect of a response's cookie operations, applied in order. -/
def applyCookieOps (jar : CookieJar) (ops : List CookieOp) : CookieJar :=
  ops.foldl applyCookieOp jar

/-- An opaque upstream calendar event.  The proxy never inspects event
fields; it forwards the upstream records unchanged, so the payload is kept
abstract as a single raw value. -/
structure CalendarEvent where
  raw : String
deriving DecidableEq, Repr

/-- An error thrown by an upstream call, restricted to the fields the
catch block of `GET /api/calendar/events` inspects: `error.message`
(a JS string, possibly absent), `error.code`, and `error.response?.status`. -/
structure UpstreamError where
  message : Option String
  code : Option Int
  responseStatus : Option Int
deriving DecidableEq, Repr

/-- The token payload returned by the provider's token endpoint
(`oauth2Client.getToken`): both fields may be absent. -/
structure Tokens where
  access_token : Option String
  refresh_token : Option String
deriving DecidableEq, Repr

/-- The credentials returned by `oauth2Client.refreshAccessToken()`;
only `access_token` is consulted by the server. -/
structure RefreshCredentials where
  access_token : Option String
deriving DecidableEq, Repr

/-- Parameters of the `calendar.events.list` request built by the proxy. -/
structure EventsListParams where
  calendarId : String
  timeMin : String
  maxResults : Nat
  singleEvents : Bool
  orderBy : String
deriving DecidableEq, Repr

/-- An upstream network call performed while handling a request. -/
inductive NetCall
  | refreshAccessToken
  | eventsList (params : EventsListParams)
deriving DecidableEq, Repr

/-- True exactly on calendar-data requests. -/
def NetCall.isEventsList : NetCall → Bool
  | .refreshAccessToken => false
  | .eventsList _ => true

/-- The closed set of outcomes of the calendar-events operation. -/
inductive Outcome
  | success (events : List CalendarEvent)
  | notAuthenticated
  | apiDisabled
  | authExpired
  | accessDenied
  | upstreamFailure
deriving DecidableEq, Repr

/-- A response of the calendar-events endpoint: HTTP status, outcome,
cookie operations issued on the response (in order), and the trace of
upstream calls performed (in order). -/
structure HttpResult where
  status : Nat
  outcome : Outcome
  cookies : List CookieOp
  calls : List NetCall
deriving DecidableEq, Repr

/-- The first classifier test of the catch block:
`error.message && (error.message.includes('API has not been used') ||
error.message.includes('is disabled'))`, with JS truthiness of the
message. -/
def isApiDisabledError (e : UpstreamError) : Bool :=
  match e.message with
  | none => false
  | some m =>
    (m ≠ "" : Bool) && (strIncludes m "API has not been used" || strIncludes m "is disabled")

/-- The catch block of `GET /api/calendar/events`: classify an upstream
error into a response, in source order (first match wins).
`cookiesSoFar` are the cookie operations already issued on the response
(by a preceding successful refresh) and `calls` the network calls already
performed; the classifier only ever appends to `cookiesSoFar` (in the
unauthorized branch, which clears both token cookies). -/
def classifyError (e : UpstreamError) (cookiesSoFar : List CookieOp)
    (calls : List NetCall) : HttpResult :=
  if isApiDisabledError e then
    { status := 409, outcome := .apiDisabled, cookies := cookiesSoFar, calls := calls }
  else if e.code = some 401 ∨ e.responseStatus = some 401 then
    { status := 401, outcome := .authExpired,
      cookies := cookiesSoFar ++
        [.clear "google_access_token" clearCookieOpts,
         .clear "google_refresh_token" clearCookieOpts],
      calls := calls }
  else if e.code = some 403 ∨ e.responseStatus = some 403 then
    { status := 409, outcome := .accessDenied, cookies := cookiesSoFar, calls := calls }
  else
    { status := 500, outcome := .upstreamFailure, cookies := cookiesSoFar, calls := calls }

/-- The fixed `calendar.events.list` parameters: primary calendar, window
starting at the current time, at most 20 results, recurring events
expanded to single instances, ordered by start time. -/
def eventsListParams (now : String) : EventsListParams :=
  { calendarId := "primary", timeMin := now, maxResults := 20,
    singleEvents := true, orderBy := "startTime" }

/-- Handler of `GET /api/calendar/events`.  Inputs: the two session
cookies as received (absent or raw string), the current time as an ISO
string, and the results the upstream would give to the (at most one)
refresh call and the (at most one) calendar-list call; a `.error` result
models the corresponding `await` throwing. -/
def apiCalendarEvents (accessToken refreshToken : Option String) (now : String)
    (refreshResult : Except UpstreamError RefreshCredentials)
    (calendarResult : Except UpstreamError (List CalendarEvent)) : HttpResult :=
  if !jsTruthy accessToken && !jsTruthy refreshToken then
    { status := 401, outcome := .notAuthenticated, cookies := [], calls := [] }
  else if !jsTruthy accessToken && jsTruthy refreshToken then
    match refreshResult with
    | .error e => classifyError e [] [.refreshAccessToken]
    | .ok creds =>
      let setOp : CookieOp :=
        .set "google_access_token" creds.access_token accessCookieOpts
      match calendarResult with
      | .ok items =>
        { status := 200, outcome := .success items, cookies := [setOp],
          calls := [.refreshAccessToken, .eventsList (eventsListParams now)] }
      | .error e =>
        classifyError e [setOp]
          [.refreshAccessToken, .eventsList (eventsListParams now)]
  else
    match calendarResult with
    | .ok items =>
      { status := 200, outcome := .success items, cookies := [],
        calls := [.eventsList (eventsListParams now)] }
    | .error e => classifyError e [] [.eventsList (eventsListParams now)]

/-- Response of `GET /auth/callback`: HTTP status, cookie operations, and
the number of token-endpoint exchange calls performed. -/
structure CallbackResult where
  status : Nat
  cookies : List CookieOp
  exchangeCalls : Nat
deriving DecidableEq, Repr

/-- Handler of `GET /auth/callback`.  `code` is the query parameter as
received; `exchangeResult` is what the provider's token endpoint would
return for it (`.error` models `oauth2Client.getToken` throwing).  The
guard rejects an absent or empty code before any network call; on
success the access-token cookie is always set, the refresh-token cookie
only when the token payload contains a (truthy) refresh token. -/
def authCallback (code : Option String)
    (exchangeResult : Except UpstreamError Tokens) : CallbackResult :=
  if !jsTruthy code then
    { status := 400, cookies := [], exchangeCalls := 0 }
  else
    match exchangeResult with
    | .error _ => { status := 500, cookies := [], exchangeCalls := 1 }
    | .ok tokens =>
      { status := 200,
        cookies :=
          [.set "google_access_token" tokens.access_token accessCookieOpts] ++
          (if jsTruthy tokens.refresh_token then
            [.set "google_refresh_token" tokens.refresh_token refreshCookieOpts]
          else []),
        exchangeCalls := 1 }

/-- Handler of `GET /api/auth/status`, reading the session's cookie jar:
authenticated iff either token cookie is (truthily) present. -/
def apiAuthStatus (jar : CookieJar) : Bool :=
  jsTruthy jar.google_access_token || jsTruthy jar.google_refresh_token

/-- Response of `POST /api/auth/logout`. -/
structure LogoutResult where
  success : Bool
  cookies : List CookieOp
deriving DecidableEq, Repr

/-- Handler of `POST /api/auth/logout`: clears both token cookies and
returns success, unconditionally. -/
def apiAuthLogout : LogoutResult :=
  { success := true,
    cookies := [.clear "google_access_token" clearCookieOpts,
                .clear "google_refresh_token" clearCookieOpts] }

/-- The classifier never changes the recorded call trace. -/
theorem classifyError_calls (e : UpstreamError) (cs : List CookieOp)
    (calls : List NetCall) : (classifyError e cs calls).calls = calls := by
  unfold classifyError
  split
  · rfl
  split
  · rfl
  split <;> rfl

/-- The classifier only appends cookie operations, so the first cookie
operation issued before classification stays first. -/
theorem classifyError_cookies_head (e : UpstreamError) (c : CookieOp)
    (cs : List CookieOp) (calls : List NetCall) :
    (classifyError e (c :: cs) calls).cookies.head? = some c := by
  unfold classifyError
  split
  · rfl
  split
  · rfl
  split <;> rfl

/-- Evaluation of the events handler when the access-token cookie is
falsy and the refresh-token cookie is truthy: the manual-refresh branch. -/
theorem apiCalendarEvents_refresh_branch
    (accessToken refreshToken : Option String) (now : String)
    (rr : Except UpstreamError RefreshCredentials)
    (cr : Except UpstreamError (List CalendarEvent))
    (hA : jsTruthy accessToken = false) (hR : jsTruthy refreshToken = true) :
    apiCalendarEvents accessToken refreshToken now rr cr =
      match rr with
      | .error e => classifyError e [] [.refreshAccessToken]
      | .ok creds =>
        match cr with
        | .ok items =>
          { status := 200, outcome := .success items,
            cookies := [.set "google_access_token" creds.access_token accessCookieOpts],
            calls := [.refreshAccessToken, .eventsList (eventsListParams now)] }
        | .error e =>
          classifyError e
            [.set "google_access_token" creds.access_token accessCookieOpts]
            [.refreshAccessToken, .eventsList (eventsListParams now)] := by
  unfold apiCalendarEvents
  rw [hA, hR]
  cases rr <;> cases cr <;> rfl

/-- Evaluation of the events handler when the access-token cookie is
truthy: no refresh, straight to the calendar request. -/
theorem apiCalendarEvents_access_branch
    (accessToken refreshToken : Option String) (now : String)
    (rr : Except UpstreamError RefreshCredentials)
    (cr : Except UpstreamError (List CalendarEvent))
    (hA : jsTruthy accessToken = true) :
    apiCalendarEvents accessToken refreshToken now rr cr =
      match cr with
      | .ok items =>
        { status := 200, outcome := .success items, cookies := [],
          calls := [.eventsList (eventsListParams now)] }
      | .error e => classifyError e [] [.eventsList (eventsListParams now)] := by
  unfold apiCalendarEvents
  rw [hA]
  cases cr <;> rfl

/-- C1: for every session credential with no (truthy) access token but a
truthy refresh token, the calendar-events handler performs exactly one
refresh call, then exactly one calendar-data request, in that order; and
the access token obtained from the refresh is committed to the
access-token session cookie as the first cookie operation of the
response, whatever the calendar call then returns. -/
theorem refresh_first_commit_token
    (accessToken refreshToken : Option String) (now : String)
    (creds : RefreshCredentials)
    (calendarResult : Except UpstreamError (List CalendarEvent))
    (hA : jsTruthy accessToken = false) (hR : jsTruthy refreshToken = true) :
    (apiCalendarEvents accessToken refreshToken now (.ok creds) calendarResult).calls =
      [.refreshAccessToken, .eventsList (eventsListParams now)] ∧
    (apiCalendarEvents accessToken refreshToken now (.ok creds) calendarResult).cookies.head? =
      some (.set "google_access_token" creds.access_token accessCookieOpts) := by
  rw [apiCalendarEvents_refresh_branch accessToken refreshToken now (.ok creds)
    calendarResult hA hR]
  cases calendarResult with
  | ok items => exact ⟨rfl, rfl⟩
  | error e =>
    exact ⟨classifyError_calls e _ _, classifyError_cookies_head e _ _ _⟩

/-- Concrete instantiation of `refresh_first_commit_token`: no access
cookie, refresh cookie present, refresh succeeds, calendar call succeeds
with an empty list. -/
theorem refresh_first_commit_token_witness :
    (apiCalendarEvents none (some "rtok") "2026-01-01T00:00:00.000Z"
        (.ok { access_token := some "newtok" }) (.ok [])).calls =
      [.refreshAccessToken,
       .eventsList (eventsListParams "2026-01-01T00:00:00.000Z")] ∧
    (apiCalendarEvents none (some "rtok") "2026-01-01T00:00:00.000Z"
        (.ok { access_token := some "newtok" }) (.ok [])).cookies.head? =
      some (.set "google_access_token" (some "newtok") accessCookieOpts) :=
  refresh_first_commit_token none (some "rtok") "2026-01-01T00:00:00.000Z"
    { access_token := some "newtok" } (.ok []) (by decide) (by decide)

/-- Classifier evaluation on a disabled-API error (rule 1). -/
theorem classifyError_disabled (e : UpstreamError) (cs : List CookieOp)
    (calls : List NetCall) (hDis : isApiDisabledError e = true) :
    classifyError e cs calls =
      { status := 409, outcome := .apiDisabled, cookies := cs, calls := calls } := by
  unfold classifyError
  rw [if_pos hDis]

/-- Classifier evaluation on an unauthorized error that is not a
disabled-API error (rule 2): both token cookies are cleared. -/
theorem classifyError_unauthorized (e : UpstreamError) (cs : List CookieOp)
    (calls : List NetCall) (hDis : isApiDisabledError e = false)
    (h401 : e.code = some 401 ∨ e.responseStatus = some 401) :
    classifyError e cs calls =
      { status := 401, outcome := .authExpired,
        cookies := cs ++ [.clear "google_access_token" clearCookieOpts,
                          .clear "google_refresh_token" clearCookieOpts],
        calls := calls } := by
  unfold classifyError
  rw [if_neg (by rw [hDis]; exact Bool.false_ne_true), if_pos h401]

/-- Events handler, access token truthy, calendar call succeeds. -/
theorem apiCalendarEvents_access_ok
    (accessToken refreshToken : Option String) (now : String)
    (rr : Except UpstreamError RefreshCredentials) (items : List CalendarEvent)
    (hA : jsTruthy accessToken = true) :
    apiCalendarEvents accessToken refreshToken now rr (.ok items) =
      { status := 200, outcome := .success items, cookies := [],
        calls := [.eventsList (eventsListParams now)] } := by
  rw [apiCalendarEvents_access_branch accessToken refreshToken now rr (.ok items) hA]

/-- Events handler, access token truthy, calendar call throws. -/
theorem apiCalendarEvents_access_error
    (accessToken refreshToken : Option String) (now : String)
    (rr : Except UpstreamError RefreshCredentials) (e : UpstreamError)
    (hA : jsTruthy accessToken = true) :
    apiCalendarEvents accessToken refreshToken now rr (.error e) =
      classifyError e [] [.eventsList (eventsListParams now)] := by
  rw [apiCalendarEvents_access_branch accessToken refreshToken now rr (.error e) hA]

/-- Events handler, refresh branch, refresh succeeds, calendar throws. -/
theorem apiCalendarEvents_refresh_ok_error
    (accessToken refreshToken : Option String) (now : String)
    (creds : RefreshCredentials) (e : UpstreamError)
    (hA : jsTruthy accessToken = false) (hR : jsTruthy refreshToken = true) :
    apiCalendarEvents accessToken refreshToken now (.ok creds) (.error e) =
      classifyError e
        [.set "google_access_token" creds.access_token accessCookieOpts]
        [.refreshAccessToken, .eventsList (eventsListParams now)] := by
  rw [apiCalendarEvents_refresh_branch accessToken refreshToken now (.ok creds)
    (.error e) hA hR]

/-- Events handler, refresh branch, the refresh call itself throws. -/
theorem apiCalendarEvents_refresh_error
    (accessToken refreshToken : Option String) (now : String)
    (e : UpstreamError) (cr : Except UpstreamError (List CalendarEvent))
    (hA : jsTruthy accessToken = false) (hR : jsTruthy refreshToken = true) :
    apiCalendarEvents accessToken refreshToken now (.error e) cr =
      classifyError e [] [.refreshAccessToken] := by
  rw [apiCalendarEvents_refresh_branch accessToken refreshToken now (.error e)
    cr hA hR]

/-- C2: an upstream failure whose (truthy) message contains a
disabled-API indicator is classified `ApiDisabled` (status 409) by the
catch block, regardless of the error's status fields: rule 1 is tested
before the unauthorized rule, and the first match wins. -/
theorem disabled_rule_first
    (e : UpstreamError) (m : String)
    (cookiesSoFar : List CookieOp) (calls : List NetCall)
    (hm : e.message = some m) (hne : m ≠ "")
    (hind : strIncludes m "API has not been used" = true ∨
      strIncludes m "is disabled" = true) :
    (classifyError e cookiesSoFar calls).outcome = .apiDisabled ∧
    (classifyError e cookiesSoFar calls).status = 409 := by
  have hDis : isApiDisabledError e = true := by
    unfold isApiDisabledError
    rw [hm]
    rcases hind with h | h <;> simp [hne, h]
  rw [classifyError_disabled e cookiesSoFar calls hDis]
  exact ⟨rfl, rfl⟩

/-- Concrete instantiation of `disabled_rule_first`: the error carries
both a disabled-API message and an unauthorized status 401, yet the
outcome is `ApiDisabled`. -/
theorem disabled_rule_first_witness :
    (classifyError
      { message := some "Google Calendar API is disabled", code := some 401,
        responseStatus := some 401 } [] []).outcome = .apiDisabled ∧
    (classifyError
      { message := some "Google Calendar API is disabled", code := some 401,
        responseStatus := some 401 } [] []).status = 409 :=
  disabled_rule_first
    { message := some "Google Calendar API is disabled", code := some 401,
      responseStatus := some 401 }
    "Google Calendar API is disabled" [] [] rfl (by decide) (Or.inr (by decide))

/-- C3: with a truthy access token stored, when the calendar call throws
an unauthorized error (not classified as disabled-API), the handler
responds `AuthExpired` with status 401, clears both token cookies on the
response, and a subsequent auth-status check on the session's updated
cookie jar reports unauthenticated. -/
theorem unauthorized_clears_and_deauthenticates
    (accessToken refreshToken : Option String) (now : String)
    (refreshResult : Except UpstreamError RefreshCredentials)
    (e : UpstreamError) (jar : CookieJar)
    (hA : jsTruthy accessToken = true)
    (hDis : isApiDisabledError e = false)
    (h401 : e.code = some 401 ∨ e.responseStatus = some 401) :
    (apiCalendarEvents accessToken refreshToken now refreshResult (.error e)).outcome =
      .authExpired ∧
    (apiCalendarEvents accessToken refreshToken now refreshResult (.error e)).status =
      401 ∧
    (apiCalendarEvents accessToken refreshToken now refreshResult (.error e)).cookies =
      [.clear "google_access_token" clearCookieOpts,
       .clear "google_refresh_token" clearCookieOpts] ∧
    apiAuthStatus (applyCookieOps jar
      (apiCalendarEvents accessToken refreshToken now refreshResult (.error e)).cookies) =
      false := by
  rw [apiCalendarEvents_access_error accessToken refreshToken now refreshResult e hA,
    classifyError_unauthorized e [] _ hDis h401]
  refine ⟨rfl, rfl, rfl, ?_⟩
  cases jar
  rfl

/-- Concrete instantiation of `unauthorized_clears_and_deauthenticates`
at an error with code 401 and a session jar holding both tokens. -/
theorem unauthorized_clears_and_deauthenticates_witness :
    (apiCalendarEvents (some "atok") (some "rtok") "2026-01-01T00:00:00.000Z"
      (.error { message := none, code := none, responseStatus := none })
      (.error { message := some "Invalid Credentials", code := some 401,
                responseStatus := some 401 })).outcome = .authExpired ∧
    (apiCalendarEvents (some "atok") (some "rtok") "2026-01-01T00:00:00.000Z"
      (.error { message := none, code := none, responseStatus := none })
      (.error { message := some "Invalid Credentials", code := some 401,
                responseStatus := some 401 })).status = 401 ∧
    (apiCalendarEvents (some "atok") (some "rtok") "2026-01-01T00:00:00.000Z"
      (.error { message := none, code := none, responseStatus := none })
      (.error { message := some "Invalid Credentials", code := some 401,
                responseStatus := some 401 })).cookies =
      [.clear "google_access_token" clearCookieOpts,
       .clear "google_refresh_token" clearCookieOpts] ∧
    apiAuthStatus (applyCookieOps
      { google_access_token := some "atok", google_refresh_token := some "rtok" }
      (apiCalendarEvents (some "atok") (some "rtok") "2026-01-01T00:00:00.000Z"
        (.error { message := none, code := none, responseStatus := none })
        (.error { message := some "Invalid Credentials", code := some 401,
                  responseStatus := some 401 })).cookies) = false :=
  unauthorized_clears_and_deauthenticates (some "atok") (some "rtok")
    "2026-01-01T00:00:00.000Z"
    (.error { message := none, code := none, responseStatus := none })
    { message := some "Invalid Credentials", code := some 401,
      responseStatus := some 401 }
    { google_access_token := some "atok", google_refresh_token := some "rtok" }
    (by decide) (by decide) (Or.inl rfl)

/-- C4: with neither token cookie truthy, the handler responds 401
`NotAuthenticated` immediately: no refresh call, no calendar request,
no cookie operation. -/
theorem no_credential_no_network
    (accessToken refreshToken : Option String) (now : String)
    (refreshResult : Except UpstreamError RefreshCredentials)
    (calendarResult : Except UpstreamError (List CalendarEvent))
    (hA : jsTruthy accessToken = false) (hR : jsTruthy refreshToken = false) :
    apiCalendarEvents accessToken refreshToken now refreshResult calendarResult =
      { status := 401, outcome := .notAuthenticated, cookies := [], calls := [] } := by
  unfold apiCalendarEvents
  rw [hA, hR]
  rfl

/-- Concrete instantiation of `no_credential_no_network`: both cookies
absent. -/
theorem no_credential_no_network_witness :
    apiCalendarEvents none none "2026-01-01T00:00:00.000Z"
      (.ok { access_token := some "x" }) (.ok []) =
      { status := 401, outcome := .notAuthenticated, cookies := [], calls := [] } :=
  no_credential_no_network none none "2026-01-01T00:00:00.000Z"
    (.ok { access_token := some "x" }) (.ok []) (by decide) (by decide)

/-- Classifier evaluation on a forbidden error that matched neither
rule 1 nor rule 2 (rule 3). -/
theorem classifyError_forbidden (e : UpstreamError) (cs : List CookieOp)
    (calls : List NetCall) (h1 : isApiDisabledError e = false)
    (h2 : ¬(e.code = some 401 ∨ e.responseStatus = some 401))
    (h3 : e.code = some 403 ∨ e.responseStatus = some 403) :
    classifyError e cs calls =
      { status := 409, outcome := .accessDenied, cookies := cs, calls := calls } := by
  unfold classifyError
  rw [if_neg (by rw [h1]; exact Bool.false_ne_true), if_neg h2, if_pos h3]

/-- Classifier evaluation on an error matching no rule (rule 4). -/
theorem classifyError_fallback (e : UpstreamError) (cs : List CookieOp)
    (calls : List NetCall) (h1 : isApiDisabledError e = false)
    (h2 : ¬(e.code = some 401 ∨ e.responseStatus = some 401))
    (h3 : ¬(e.code = some 403 ∨ e.responseStatus = some 403)) :
    classifyError e cs calls =
      { status := 500, outcome := .upstreamFailure, cookies := cs, calls := calls } := by
  unfold classifyError
  rw [if_neg (by rw [h1]; exact Bool.false_ne_true), if_neg h2, if_neg h3]

/-- Events handler with neither token cookie truthy: immediate 401. -/
theorem apiCalendarEvents_noauth
    (accessToken refreshToken : Option String) (now : String)
    (rr : Except UpstreamError RefreshCredentials)
    (cr : Except UpstreamError (List CalendarEvent))
    (hA : jsTruthy accessToken = false) (hR : jsTruthy refreshToken = false) :
    apiCalendarEvents accessToken refreshToken now rr cr =
      { status := 401, outcome := .notAuthenticated, cookies := [], calls := [] } := by
  unfold apiCalendarEvents
  rw [hA, hR]
  rfl

/-- The closed response taxonomy of the calendar-events operation, with
the status code each outcome is served with.  The six disjuncts are
pairwise exclusive since `Outcome` constructors are distinct. -/
def WellClassified (r : HttpResult) : Prop :=
  (∃ evs, r.outcome = .success evs ∧ r.status = 200) ∨
  (r.outcome = .notAuthenticated ∧ r.status = 401) ∨
  (r.outcome = .apiDisabled ∧ r.status = 409) ∨
  (r.outcome = .authExpired ∧ r.status = 401) ∨
  (r.outcome = .accessDenied ∧ r.status = 409) ∨
  (r.outcome = .upstreamFailure ∧ r.status = 500)

/-- Every classifier output lies in the taxonomy with its fixed status. -/
theorem classifyError_wellClassified (e : UpstreamError) (cs : List CookieOp)
    (calls : List NetCall) : WellClassified (classifyError e cs calls) := by
  by_cases h1 : isApiDisabledError e = true
  · rw [classifyError_disabled e cs calls h1]
    exact Or.inr (Or.inr (Or.inl ⟨rfl, rfl⟩))
  · have h1' : isApiDisabledError e = false := by simpa using h1
    by_cases h2 : e.code = some 401 ∨ e.responseStatus = some 401
    · rw [classifyError_unauthorized e cs calls h1' h2]
      exact Or.inr (Or.inr (Or.inr (Or.inl ⟨rfl, rfl⟩)))
    · by_cases h3 : e.code = some 403 ∨ e.responseStatus = some 403
      · rw [classifyError_forbidden e cs calls h1' h2 h3]
        exact Or.inr (Or.inr (Or.inr (Or.inr (Or.inl ⟨rfl, rfl⟩))))
      · rw [classifyError_fallback e cs calls h1' h2 h3]
        exact Or.inr (Or.inr (Or.inr (Or.inr (Or.inr ⟨rfl, rfl⟩))))

/-- C5: every execution of the events handler — any cookie state, any
refresh result, any thrown calendar error — produces exactly one
response, whose outcome lies in the closed six-element taxonomy with its
fixed status code. -/
theorem events_taxonomy_closed
    (accessToken refreshToken : Option String) (now : String)
    (refreshResult : Except UpstreamError RefreshCredentials)
    (calendarResult : Except UpstreamError (List CalendarEvent)) :
    WellClassified
      (apiCalendarEvents accessToken refreshToken now refreshResult calendarResult) := by
  by_cases hA : jsTruthy accessToken = true
  · rcases calendarResult with e | items
    · rw [apiCalendarEvents_access_error accessToken refreshToken now refreshResult e hA]
      exact classifyError_wellClassified e [] [.eventsList (eventsListParams now)]
    · rw [apiCalendarEvents_access_ok accessToken refreshToken now refreshResult items hA]
      exact Or.inl ⟨items, rfl, rfl⟩
  · have hA' : jsTruthy accessToken = false := by simpa using hA
    by_cases hR : jsTruthy refreshToken = true
    · rcases refreshResult with e | creds
      · rw [apiCalendarEvents_refresh_error accessToken refreshToken now e
          calendarResult hA' hR]
        exact classifyError_wellClassified e [] [.refreshAccessToken]
      · rcases calendarResult with e | items
        · rw [apiCalendarEvents_refresh_ok_error accessToken refreshToken now creds e
            hA' hR]
          exact classifyError_wellClassified e _ _
        · rw [apiCalendarEvents_refresh_branch accessToken refreshToken now (.ok creds)
            (.ok items) hA' hR]
          exact Or.inl ⟨items, rfl, rfl⟩
    · have hR' : jsTruthy refreshToken = false := by simpa using hR
      rw [apiCalendarEvents_noauth accessToken refreshToken now refreshResult
        calendarResult hA' hR']
      exact Or.inr (Or.inl ⟨rfl, rfl⟩)

/-- C7: whenever the session is authenticated enough to reach the data
call (truthy access token, or truthy refresh token with a successful
refresh), exactly one calendar request is issued, for the primary
calendar, windowed from the current time, capped at 20 results, with
recurring events expanded to single instances and ordered by start time;
and on upstream success the event sequence is passed through unchanged
with status 200. -/
theorem single_fetch_passthrough
    (accessToken refreshToken : Option String) (now : String)
    (refreshResult : Except UpstreamError RefreshCredentials)
    (calendarResult : Except UpstreamError (List CalendarEvent))
    (items : List CalendarEvent)
    (hauth : jsTruthy accessToken = true ∨
      (jsTruthy refreshToken = true ∧ ∃ c, refreshResult = .ok c)) :
    (apiCalendarEvents accessToken refreshToken now refreshResult
        calendarResult).calls.filter NetCall.isEventsList =
      [.eventsList { calendarId := "primary", timeMin := now, maxResults := 20,
                     singleEvents := true, orderBy := "startTime" }] ∧
    (calendarResult = .ok items →
      (apiCalendarEvents accessToken refreshToken now refreshResult
        calendarResult).outcome = .success items ∧
      (apiCalendarEvents accessToken refreshToken now refreshResult
        calendarResult).status = 200) := by
  by_cases hA : jsTruthy accessToken = true
  · rcases calendarResult with e | its
    · rw [apiCalendarEvents_access_error accessToken refreshToken now refreshResult e hA]
      rw [classifyError_calls]
      refine ⟨by simp [List.filter, NetCall.isEventsList, eventsListParams], ?_⟩
      intro hcontra
      exact absurd hcontra (by simp)
    · rw [apiCalendarEvents_access_ok accessToken refreshToken now refreshResult its hA]
      refine ⟨by simp [List.filter, NetCall.isEventsList, eventsListParams], ?_⟩
      intro hok
      injection hok with hok
      subst hok
      exact ⟨rfl, rfl⟩
  · have hA' : jsTruthy accessToken = false := by simpa using hA
    rcases hauth with hauth | ⟨hR, c, hc⟩
    · exact absurd hauth hA
    subst hc
    rcases calendarResult with e | its
    · rw [apiCalendarEvents_refresh_ok_error accessToken refreshToken now c e hA' hR]
      rw [classifyError_calls]
      refine ⟨by simp [List.filter, NetCall.isEventsList, eventsListParams], ?_⟩
      intro hcontra
      exact absurd hcontra (by simp)
    · rw [apiCalendarEvents_refresh_branch accessToken refreshToken now (.ok c)
        (.ok its) hA' hR]
      refine ⟨by simp [List.filter, NetCall.isEventsList, eventsListParams], ?_⟩
      intro hok
      injection hok with hok
      subst hok
      exact ⟨rfl, rfl⟩

/-- Concrete instantiation of `single_fetch_passthrough`: a truthy access
token and one upstream event passed through unchanged. -/
theorem single_fetch_passthrough_witness :
    (apiCalendarEvents (some "atok") none "2026-01-01T00:00:00.000Z"
        (.error { message := none, code := none, responseStatus := none })
        (.ok [{ raw := "ev1" }])).calls.filter NetCall.isEventsList =
      [.eventsList { calendarId := "primary",
                     timeMin := "2026-01-01T00:00:00.000Z", maxResults := 20,
                     singleEvents := true, orderBy := "startTime" }] ∧
    ((.ok [{ raw := "ev1" }] : Except UpstreamError (List CalendarEvent)) =
        .ok [{ raw := "ev1" }] →
      (apiCalendarEvents (some "atok") none "2026-01-01T00:00:00.000Z"
        (.error { message := none, code := none, responseStatus := none })
        (.ok [{ raw := "ev1" }])).outcome = .success [{ raw := "ev1" }] ∧
      (apiCalendarEvents (some "atok") none "2026-01-01T00:00:00.000Z"
        (.error { message := none, code := none, responseStatus := none })
        (.ok [{ raw := "ev1" }])).status = 200) :=
  single_fetch_passthrough (some "atok") none "2026-01-01T00:00:00.000Z"
    (.error { message := none, code := none, responseStatus := none })
    (.ok [{ raw := "ev1" }]) [{ raw := "ev1" }] (Or.inl (by decide))

/-- C8: logout is total and idempotent — it always reports success,
clearing both token cookies leaves any session jar equal to the empty
Token Store, applying the logout response twice still yields the empty
store, and the auth-status check afterwards reports unauthenticated. -/
theorem logout_idempotent (jar : CookieJar) :
    apiAuthLogout.success = true ∧
    applyCookieOps jar apiAuthLogout.cookies = CookieJar.empty ∧
    applyCookieOps (applyCookieOps jar apiAuthLogout.cookies) apiAuthLogout.cookies =
      CookieJar.empty ∧
    apiAuthStatus (applyCookieOps jar apiAuthLogout.cookies) = false := by
  cases jar
  exact ⟨rfl, rfl, rfl, rfl⟩

/-- C9: a callback whose code query parameter is absent or empty is
rejected with status 400 before any token-endpoint exchange: no network
call, no cookie set. -/
theorem missing_code_never_exchanges
    (code : Option String) (exchangeResult : Except UpstreamError Tokens)
    (h : code = none ∨ code = some "") :
    authCallback code exchangeResult =
      { status := 400, cookies := [], exchangeCalls := 0 } := by
  rcases h with h | h <;> subst h <;> rfl

/-- Concrete instantiation of `missing_code_never_exchanges` at an absent
code parameter. -/
theorem missing_code_never_exchanges_witness :
    authCallback none
      (.ok { access_token := some "a", refresh_token := some "r" }) =
      { status := 400, cookies := [], exchangeCalls := 0 } :=
  missing_code_never_exchanges none
    (.ok { access_token := some "a", refresh_token := some "r" }) (Or.inl rfl)

/-- Counterexample to C6 as stated: a successful callback (valid code,
exchange succeeded, status 200) whose token payload carries no refresh
token sets only ONE session cookie — the refresh-token cookie is absent
from the response. -/
theorem callback_two_cookies_counterexample :
    (authCallback (some "authcode")
      (.ok { access_token := some "at123", refresh_token := none })).status = 200 ∧
    (authCallback (some "authcode")
      (.ok { access_token := some "at123", refresh_token := none })).cookies =
      [.set "google_access_token" (some "at123") accessCookieOpts] :=
  ⟨rfl, rfl⟩

/-- C6 (amended): every successful callback responds 200 and sets the
access-token cookie HTTP-only, secure, SameSite None, with a one-hour
maxAge; the refresh-token cookie — same flags, thirty-day maxAge — is
additionally set exactly when the exchanged token payload carries a
truthy refresh token. -/
theorem callback_cookie_policy
    (code : Option String) (tokens : Tokens)
    (hc : jsTruthy code = true) :
    (authCallback code (.ok tokens)).status = 200 ∧
    (authCallback code (.ok tokens)).cookies =
      [CookieOp.set "google_access_token" tokens.access_token
        { httpOnly := true, secure := true, sameSite := "none",
          maxAge := 3600000 }] ++
      (if jsTruthy tokens.refresh_token = true then
        [CookieOp.set "google_refresh_token" tokens.refresh_token
          { httpOnly := true, secure := true, sameSite := "none",
            maxAge := 2592000000 }]
      else []) := by
  unfold authCallback
  rw [hc]
  exact ⟨rfl, rfl⟩

/-- Concrete instantiation of `callback_cookie_policy`: a token payload
carrying both tokens yields both cookies with their attributes. -/
theorem callback_cookie_policy_witness :
    (authCallback (some "authcode")
      (.ok { access_token := some "at123", refresh_token := some "rt456" })).status =
      200 ∧
    (authCallback (some "authcode")
      (.ok { access_token := some "at123", refresh_token := some "rt456" })).cookies =
      [CookieOp.set "google_access_token" (some "at123")
        { httpOnly := true, secure := true, sameSite := "none",
          maxAge := 3600000 }] ++
      (if jsTruthy (some "rt456") = true then
        [CookieOp.set "google_refresh_token" (some "rt456")
          { httpOnly := true, secure := true, sameSite := "none",
            maxAge := 2592000000 }]
      else []) :=
  callback_cookie_policy (some "authcode")
    { access_token := some "at123", refresh_token := some "rt456" } (by decide)

/-- Outside the unauthorized branch, the classifier leaves the response's
cookie operations exactly as it received them. -/
theorem classifyError_not_authExpired_cookies (e : UpstreamError)
    (cs : List CookieOp) (calls : List NetCall)
    (h : (classifyError e cs calls).outcome ≠ .authExpired) :
    (classifyError e cs calls).cookies = cs := by
  by_cases h1 : isApiDisabledError e = true
  · rw [classifyError_disabled e cs calls h1]
  · have h1' : isApiDisabledError e = false := by simpa using h1
    by_cases h2 : e.code = some 401 ∨ e.responseStatus = some 401
    · exact absurd (by rw [classifyError_unauthorized e cs calls h1' h2]) h
    · by_cases h3 : e.code = some 403 ∨ e.responseStatus = some 403
      · rw [classifyError_forbidden e cs calls h1' h2 h3]
      · rw [classifyError_fallback e cs calls h1' h2 h3]

/-- A cookie-operation list containing no clear operation and at most one
write: the access-token commit issued by the manual-refresh step. -/
def refreshCommitOnly : List CookieOp → Bool
  | [] => true
  | [.set n _ o] => n = "google_access_token" && o = accessCookieOpts
  | _ => false

/-- Counterexample to C10 as stated: when the access cookie is absent,
the refresh succeeds and the calendar call then throws an unclassified
error, the resulting 500 `UpstreamFailure` error response DOES rewrite
the access-token cookie (with the freshly refreshed token). -/
theorem error_frame_counterexample :
    (apiCalendarEvents none (some "rtok") "2026-01-01T00:00:00.000Z"
      (.ok { access_token := some "newtok" })
      (.error { message := none, code := none, responseStatus := none })).outcome =
      .upstreamFailure ∧
    (apiCalendarEvents none (some "rtok") "2026-01-01T00:00:00.000Z"
      (.ok { access_token := some "newtok" })
      (.error { message := none, code := none, responseStatus := none })).cookies =
      [.set "google_access_token" (some "newtok") accessCookieOpts] :=
  ⟨rfl, rfl⟩

/-- C10 (amended): on every `ApiDisabled`, `AccessDenied` or
`UpstreamFailure` response of the events handler, no cookie is cleared
and the refresh-token cookie is never written — the response's only
possible cookie operation is the access-token commit issued by a
preceding successful refresh; and when the request carried a truthy
access token (so no refresh ran), the error response carries no cookie
operation at all.  `AuthExpired` remains the only error path that
modifies the stored tokens. -/
theorem error_paths_frame
    (accessToken refreshToken : Option String) (now : String)
    (refreshResult : Except UpstreamError RefreshCredentials)
    (calendarResult : Except UpstreamError (List CalendarEvent))
    (h : (apiCalendarEvents accessToken refreshToken now refreshResult
            calendarResult).outcome = .apiDisabled ∨
         (apiCalendarEvents accessToken refreshToken now refreshResult
            calendarResult).outcome = .accessDenied ∨
         (apiCalendarEvents accessToken refreshToken now refreshResult
            calendarResult).outcome = .upstreamFailure) :
    refreshCommitOnly (apiCalendarEvents accessToken refreshToken now refreshResult
      calendarResult).cookies = true ∧
    (jsTruthy accessToken = true →
      (apiCalendarEvents accessToken refreshToken now refreshResult
        calendarResult).cookies = []) := by
  have hne : (apiCalendarEvents accessToken refreshToken now refreshResult
      calendarResult).outcome ≠ .authExpired := by
    rcases h with h | h | h <;> rw [h] <;> exact fun hc => Outcome.noConfusion hc
  by_cases hA : jsTruthy accessToken = true
  · rcases calendarResult with e | items
    · rw [apiCalendarEvents_access_error accessToken refreshToken now refreshResult
        e hA] at hne ⊢
      rw [classifyError_not_authExpired_cookies e [] _ hne]
      exact ⟨rfl, fun _ => rfl⟩
    · rw [apiCalendarEvents_access_ok accessToken refreshToken now refreshResult
        items hA]
      exact ⟨rfl, fun _ => rfl⟩
  · have hA' : jsTruthy accessToken = false := by simpa using hA
    by_cases hR : jsTruthy refreshToken = true
    · rcases refreshResult with e | creds
      · rw [apiCalendarEvents_refresh_error accessToken refreshToken now e
          calendarResult hA' hR] at hne ⊢
        rw [classifyError_not_authExpired_cookies e [] _ hne]
        exact ⟨rfl, fun hAt => absurd hAt hA⟩
      · rcases calendarResult with e | items
        · rw [apiCalendarEvents_refresh_ok_error accessToken refreshToken now creds
            e hA' hR] at hne ⊢
          rw [classifyError_not_authExpired_cookies e _ _ hne]
          refine ⟨?_, fun hAt => absurd hAt hA⟩
          show (decide ("google_access_token" = "google_access_token") &&
            decide (accessCookieOpts = accessCookieOpts)) = true
          simp
        · rw [apiCalendarEvents_refresh_branch accessToken refreshToken now
            (.ok creds) (.ok items) hA' hR]
          refine ⟨?_, fun hAt => absurd hAt hA⟩
          show (decide ("google_access_token" = "google_access_token") &&
            decide (accessCookieOpts = accessCookieOpts)) = true
          simp
    · have hR' : jsTruthy refreshToken = false := by simpa using hR
      rw [apiCalendarEvents_noauth accessToken refreshToken now refreshResult
        calendarResult hA' hR']
      exact ⟨rfl, fun _ => rfl⟩

/-- Concrete instantiation of `error_paths_frame`: access token present,
unclassified upstream error, no cookie operation on the 500 response. -/
theorem error_paths_frame_witness :
    refreshCommitOnly (apiCalendarEvents (some "atok") none
      "2026-01-01T00:00:00.000Z"
      (.error { message := none, code := none, responseStatus := none })
      (.error { message := none, code := none, responseStatus := none })).cookies =
      true ∧
    (jsTruthy (some "atok") = true →
      (apiCalendarEvents (some "atok") none "2026-01-01T00:00:00.000Z"
        (.error { message := none, code := none, responseStatus := none })
        (.error { message := none, code := none,
                  responseStatus := none })).cookies = []) :=
  error_paths_frame (some "atok") none "2026-01-01T00:00:00.000Z"
    (.error { message := none, code := none, responseStatus := none })
    (.error { message := none, code := none, responseStatus := none })
    (Or.inr (Or.inr (by decide)))
